import Mathlib

/-!
Shallow embedding of `DeviceAdapters/SequenceTester/SettingLogger.h` from
micro-manager: a thread-safe setting/event logger for a hardware-simulation
test harness.  The header gives the class layout, the inline accessor
defaults of the `SettingValue` hierarchy, `SettingKey::operator<`, and the
inline private helpers `GetNextCount`, `GetNextGlobalImageCount` and
`Reset`; the bodies of the public mutation/query methods and of the
`Write` serializers live in a `.cpp` file that is not part of the provided
source, so those are modelled from the specification (each such definition
carries a doc comment starting with `Modelled from the spec:`).

Machine integers: `counter_`, `counterAtLastReset_` and `globalImageCount_`
are `uint64_t` in the source; they are modelled as `Nat` reduced modulo
`2 ^ 64` wherever an increment occurs.  `long` and `double` payloads are
only ever stored and returned, never computed with, so they are embedded
as `Int` and `Rat` respectively.  All public operations run under a single
recursive mutex in the source; the embedding models each operation as one
atomic state transition, which is exactly the atomicity the lock provides.
-/

/-- Modulus of the `uint64_t` counters. -/
def UINT64_MOD : Nat := 2 ^ 64

/-- Polymorphic `SettingValue` hierarchy from the header, flattened into a
closed variant: `IntegerSettingValue`, `FloatSettingValue`,
`StringSettingValue`, `OneShotSettingValue` (no payload). -/
inductive SettingValue where
  | IntegerSettingValue (value_ : Int)
  | FloatSettingValue (value_ : Rat)
  | StringSettingValue (value_ : String)
  | OneShotSettingValue
deriving DecidableEq, Repr

/-- Virtual dispatch of `GetInteger`: the base class returns `0`, only
`IntegerSettingValue` overrides it to return its payload. -/
def SettingValue.GetInteger : SettingValue → Int
  | .IntegerSettingValue v => v
  | _ => 0

/-- Virtual dispatch of `GetFloat`: the base class returns `0.0`, only
`FloatSettingValue` overrides it to return its payload. -/
def SettingValue.GetFloat : SettingValue → Rat
  | .FloatSettingValue v => v
  | _ => 0

/-- Virtual dispatch of `GetString`: the base class returns the empty
string, only `StringSettingValue` overrides it to return its payload. -/
def SettingValue.GetString : SettingValue → String
  | .StringSettingValue v => v
  | _ => ""

/-- Lexicographic comparison of character lists by code point, the order
`std::string::operator<` induces (and the order of Lean's `List.lt` on
`Char`), written out so it evaluates by kernel reduction. -/
def charListLt : List Char → List Char → Bool
  | [], [] => false
  | [], _ :: _ => true
  | _ :: _, [] => false
  | a :: as, b :: bs =>
    if a.val.toNat < b.val.toNat then true
    else if b.val.toNat < a.val.toNat then false
    else charListLt as bs

/-- `operator<` on `std::string`: lexicographic. -/
def strLt (a b : String) : Bool := charListLt a.data b.data

/-- `SettingKey`: (device name, key name). -/
structure SettingKey where
  device_ : String
  key_ : String
deriving DecidableEq, Repr

/-- `SettingKey::operator<` from the header: lexicographic by device, then
by key. -/
def SettingKey.lt (a b : SettingKey) : Bool :=
  strLt a.device_ b.device_ ||
    (a.device_ == b.device_ && strLt a.key_ b.key_)

/-- `SettingEvent`: immutable record (key, value snapshot, global order
index `count_`). -/
structure SettingEvent where
  key_ : SettingKey
  value_ : SettingValue
  count_ : Nat
deriving DecidableEq, Repr

/-- `CameraInfo`: which frame and acquisition triggered the snapshot. -/
structure CameraInfo where
  camera_ : String
  isSequence_ : Bool
  serialNum_ : Nat
  frameNum_ : Nat
deriving DecidableEq, Repr

/-- `std::map<SettingKey, shared_ptr<SettingValue>>`, embedded as an
association list kept sorted by `SettingKey.lt` (the `std::map` iteration
order), with unique keys. -/
abbrev SettingMap := List (SettingKey × SettingValue)

/-- `std::map` insertion/assignment (`values[k] = v`): replaces the value
of an equivalent key, otherwise inserts at the ordered position. -/
def mapInsert : SettingMap → SettingKey → SettingValue → SettingMap
  | [], k, v => [(k, v)]
  | (k', v') :: rest, k, v =>
    if SettingKey.lt k k' then (k, v) :: (k', v') :: rest
    else if SettingKey.lt k' k then (k', v') :: mapInsert rest k v
    else (k, v) :: rest

/-- `std::map::find`: under the total lexicographic order, key equivalence
coincides with structural equality. -/
def mapFind : SettingMap → SettingKey → Option SettingValue
  | [], _ => none
  | (k', v) :: rest, k => if k = k' then some v else mapFind rest k

/-- `std::map<std::string, unsigned>` for busy points, as an association
list with unique device keys. -/
abbrev BusyMap := List (String × Nat)

/-- Busy count lookup; an absent device has count `0` (the value a
`std::map` default-constructs). -/
def bpLookup : BusyMap → String → Nat
  | [], _ => 0
  | (d, n) :: rest, device => if device = d then n else bpLookup rest device

/-- `busyPoints_[device]++`: increments the device's count, inserting it
with count `1` when absent (sorted insertion, mirroring `std::map`). -/
def bpIncr : BusyMap → String → BusyMap
  | [], device => [(device, 1)]
  | (d, n) :: rest, device =>
    if device = d then (d, n + 1) :: rest
    else if strLt device d then (device, 1) :: (d, n) :: rest
    else (d, n) :: bpIncr rest device

/-- Decrement of a busy count in place (used by the destructive query). -/
def bpDecr : BusyMap → String → BusyMap
  | [], _ => []
  | (d, n) :: rest, device =>
    if device = d then (d, n - 1) :: rest else (d, n) :: bpDecr rest device

/-- State of a `SettingLogger` instance: the three `uint64_t` counters,
the live table, the at-last-reset snapshot, the event list since the last
reset, and the per-device busy counts.  The `boost::recursive_mutex` is
modelled by every operation being one atomic transition. -/
structure SettingLogger where
  counter_ : Nat
  counterAtLastReset_ : Nat
  globalImageCount_ : Nat
  settingValues_ : SettingMap
  startingValues_ : SettingMap
  settingEvents_ : List SettingEvent
  busyPoints_ : BusyMap
deriving DecidableEq, Repr

/-- The constructor: all three counters start at zero, the maps and the
event vector default-construct empty. -/
def SettingLogger.init : SettingLogger :=
  { counter_ := 0
    counterAtLastReset_ := 0
    globalImageCount_ := 0
    settingValues_ := []
    startingValues_ := []
    settingEvents_ := []
    busyPoints_ := [] }

/-- `GetNextCount` from the header: `return counter_++;` — returns the old
counter value and advances it by one (with `uint64_t` wraparound). -/
def SettingLogger.GetNextCount (lg : SettingLogger) : Nat × SettingLogger :=
  (lg.counter_, { lg with counter_ := (lg.counter_ + 1) % UINT64_MOD })

/-- `GetNextGlobalImageCount` from the header: `return globalImageCount_++;`. -/
def SettingLogger.GetNextGlobalImageCount (lg : SettingLogger) :
    Nat × SettingLogger :=
  (lg.globalImageCount_,
    { lg with globalImageCount_ := (lg.globalImageCount_ + 1) % UINT64_MOD })

/-- `Reset` from the header: `counterAtLastReset_ = counter_;
startingValues_ = settingValues_; settingEvents_.clear();`.  It assigns
nothing else. -/
def SettingLogger.Reset (lg : SettingLogger) : SettingLogger :=
  { lg with
    counterAtLastReset_ := lg.counter_
    startingValues_ := lg.settingValues_
    settingEvents_ := [] }

/-- Modelled from the spec: the shared body of the `Set*`/`FireOneShot`
mutation methods, whose `.cpp` definitions are not in the provided source.
Under the lock it stores `v` under `(device, key)` in the live table and,
iff `logEvent`, appends a `SettingEvent` carrying a freshly allocated
order index (`GetNextCount`, i.e. the pre-increment counter value). -/
def SettingLogger.SetValueImpl (lg : SettingLogger) (device key : String)
    (v : SettingValue) (logEvent : Bool) : SettingLogger :=
  let k : SettingKey := ⟨device, key⟩
  let values := mapInsert lg.settingValues_ k v
  if logEvent then
    { lg with
      settingValues_ := values
      settingEvents_ := lg.settingEvents_ ++ [⟨k, v, lg.counter_⟩]
      counter_ := (lg.counter_ + 1) % UINT64_MOD }
  else
    { lg with settingValues_ := values }

/-- Modelled from the spec: `SetInteger` stores an integer value. -/
def SettingLogger.SetInteger (lg : SettingLogger) (device key : String)
    (value : Int) (logEvent : Bool) : SettingLogger :=
  lg.SetValueImpl device key (.IntegerSettingValue value) logEvent

/-- Modelled from the spec: `SetFloat` stores a float value. -/
def SettingLogger.SetFloat (lg : SettingLogger) (device key : String)
    (value : Rat) (logEvent : Bool) : SettingLogger :=
  lg.SetValueImpl device key (.FloatSettingValue value) logEvent

/-- Modelled from the spec: `SetString` stores a string value. -/
def SettingLogger.SetString (lg : SettingLogger) (device key : String)
    (value : String) (logEvent : Bool) : SettingLogger :=
  lg.SetValueImpl device key (.StringSettingValue value) logEvent

/-- Modelled from the spec: `FireOneShot` stores a one-shot marker value. -/
def SettingLogger.FireOneShot (lg : SettingLogger) (device key : String)
    (logEvent : Bool) : SettingLogger :=
  lg.SetValueImpl device key .OneShotSettingValue logEvent

/-- Modelled from the spec: `GetInteger` on the logger (a `const` method)
looks up the live value and returns the typed accessor's result, the
default `0` when the key is absent. -/
def SettingLogger.GetInteger (lg : SettingLogger) (device key : String) : Int :=
  match mapFind lg.settingValues_ ⟨device, key⟩ with
  | some v => v.GetInteger
  | none => 0

/-- Modelled from the spec: `GetFloat` on the logger, default `0.0` when
absent. -/
def SettingLogger.GetFloat (lg : SettingLogger) (device key : String) : Rat :=
  match mapFind lg.settingValues_ ⟨device, key⟩ with
  | some v => v.GetFloat
  | none => 0

/-- Modelled from the spec: `GetString` on the logger, default `""` when
absent. -/
def SettingLogger.GetString (lg : SettingLogger) (device key : String) : String :=
  match mapFind lg.settingValues_ ⟨device, key⟩ with
  | some v => v.GetString
  | none => ""

/-- Modelled from the spec: `MarkBusy` increments the device's busy count
and, iff `logEvent`, records the transition as an event under a reserved
key convention (embedded here as the key name `Busy` with a one-shot
marker), with a freshly allocated order index. -/
def SettingLogger.MarkBusy (lg : SettingLogger) (device : String)
    (logEvent : Bool) : SettingLogger :=
  let bps := bpIncr lg.busyPoints_ device
  if logEvent then
    { lg with
      busyPoints_ := bps
      settingEvents_ :=
        lg.settingEvents_ ++ [⟨⟨device, "Busy"⟩, .OneShotSettingValue, lg.counter_⟩]
      counter_ := (lg.counter_ + 1) % UINT64_MOD }
  else
    { lg with busyPoints_ := bps }

/-- Modelled from the spec: `IsBusy` returns whether the device's busy
count is nonzero; when the query is destructive (the default) it consumes
one busy marker: a nonzero count is decremented by one, a zero count is
left at zero.  A non-destructive query never changes state. -/
def SettingLogger.IsBusy (lg : SettingLogger) (device : String)
    (queryNonDestructively : Bool) : Bool × SettingLogger :=
  let count := bpLookup lg.busyPoints_ device
  if queryNonDestructively then (count ≠ 0, lg)
  else if count = 0 then (false, lg)
  else (true, { lg with busyPoints_ := bpDecr lg.busyPoints_ device })

/-- Modelled from the spec: the msgpack byte stream, abstracted to a flat
token stream (as in msgpack itself, a container is a header token followed
by its element items).  The opaque serializer's exact wire framing is
irrelevant to the claims; tokens keep the self-describing type tags. -/
inductive MPToken where
  | tStr (s : String)
  | tBool (b : Bool)
  | tUInt (n : Nat)
  | tInt (i : Int)
  | tFloat (q : Rat)
  | tNil
  | tArrayHeader (n : Nat)
  | tMapHeader (n : Nat)
deriving DecidableEq, Repr

/-- Modelled from the spec: a concrete byte-size measure for one token,
standing in for the opaque serializer's encoded length.  Only the "buffer
too small" comparison uses it. -/
def MPToken.size : MPToken → Nat
  | .tStr s => 1 + s.length
  | .tBool _ => 1
  | .tNil => 1
  | .tUInt _ => 9
  | .tInt _ => 9
  | .tFloat _ => 9
  | .tArrayHeader _ => 5
  | .tMapHeader _ => 5

/-- Byte size of a serialized stream (`sbuf.size()`). -/
def sbufSize (tokens : List MPToken) : Nat := (tokens.map MPToken.size).sum

/-- Modelled from the spec: `SettingValue::Write` emits exactly one
self-describing item whose type tag distinguishes the four variants. -/
def SettingValue.Write : SettingValue → List MPToken
  | .IntegerSettingValue v => [.tInt v]
  | .FloatSettingValue q => [.tFloat q]
  | .StringSettingValue s => [.tStr s]
  | .OneShotSettingValue => [.tNil]

/-- Modelled from the spec: `SettingKey::Write` emits the key as one item
holding the device name and the key name. -/
def SettingKey.Write (k : SettingKey) : List MPToken :=
  [.tArrayHeader 2, .tStr k.device_, .tStr k.key_]

/-- Modelled from the spec: `SettingEvent::Write` emits one item holding
the key, the typed value and the order index. -/
def SettingEvent.Write (e : SettingEvent) : List MPToken :=
  [.tArrayHeader 3] ++ e.key_.Write ++ e.value_.Write ++ [.tUInt e.count_]

/-- Modelled from the spec: the frame descriptor — camera name, sequence
flag, per-camera and per-acquisition frame numbers, and the
just-incremented global image count — as one nested structure. -/
def writeFrameDescriptor (info : CameraInfo) (globalImageCount : Nat) :
    List MPToken :=
  [.tArrayHeader 5, .tStr info.camera_, .tBool info.isSequence_,
    .tUInt info.serialNum_, .tUInt info.frameNum_, .tUInt globalImageCount]

/-- Device names currently holding a nonzero busy count. -/
def busyDeviceNames (bps : BusyMap) : List String :=
  (bps.filter (fun p => p.2 != 0)).map (fun p => p.1)

/-- Modelled from the spec: `WriteBusyDevices` emits the set of currently
busy device names as one container item. -/
def SettingLogger.WriteBusyDevices (lg : SettingLogger) : List MPToken :=
  let names := busyDeviceNames lg.busyPoints_
  .tArrayHeader names.length :: names.map MPToken.tStr

/-- Serialization of the entries of a setting map, in iteration order. -/
def writeMapEntries : SettingMap → List MPToken
  | [] => []
  | (k, v) :: rest => k.Write ++ v.Write ++ writeMapEntries rest

/-- Modelled from the spec: `WriteSettingMap` emits the
`(device,key) -> value` table as one map item of (key, typed value)
pairs. -/
def WriteSettingMap (values : SettingMap) : List MPToken :=
  .tMapHeader values.length :: writeMapEntries values

/-- Serialization of a list of events, in list order. -/
def writeEvents : List SettingEvent → List MPToken
  | [] => []
  | e :: rest => e.Write ++ writeEvents rest

/-- Modelled from the spec: `WriteHistory` emits the events accumulated
since the last reset as one container item, in list (append) order. -/
def SettingLogger.WriteHistory (lg : SettingLogger) : List MPToken :=
  .tArrayHeader lg.settingEvents_.length :: writeEvents lg.settingEvents_

/-- The full serialized snapshot: frame descriptor, busy devices, starting
values, events since the last reset — in that fixed order. -/
def packTokens (lg : SettingLogger) (camera : String) (isSequenceImage : Bool)
    (cameraSeqNum acquisitionSeqNum newImageCount : Nat) : List MPToken :=
  writeFrameDescriptor ⟨camera, isSequenceImage, cameraSeqNum, acquisitionSeqNum⟩
      newImageCount
    ++ lg.WriteBusyDevices
    ++ WriteSettingMap lg.startingValues_
    ++ lg.WriteHistory

/-- Modelled from the spec: `PackAndReset`.  Under one lock acquisition it
serializes the frame descriptor (with the just-incremented global image
count), the busy set, `startingValues_` and the event history.  If the
serialized size exceeds `destSize` it returns `false` with every piece of
state unchanged (no reset, no counter advance, `globalImageCount_` not
incremented).  On success it copies the bytes out, performs `Reset`,
commits the incremented global image count and returns `true`.  The
returned token list models the bytes written into `dest` (empty when
nothing is written). -/
def SettingLogger.PackAndReset (lg : SettingLogger) (destSize : Nat)
    (camera : String) (isSequenceImage : Bool)
    (cameraSeqNum acquisitionSeqNum : Nat) :
    Bool × List MPToken × SettingLogger :=
  let newImageCount := (lg.globalImageCount_ + 1) % UINT64_MOD
  let sbuf := packTokens lg camera isSequenceImage cameraSeqNum
    acquisitionSeqNum newImageCount
  if sbufSize sbuf ≤ destSize then
    (true, sbuf, { lg.Reset with globalImageCount_ := newImageCount })
  else
    (false, [], lg)

/-- One mutation call with `logEvent = true`, for stating trace-level
properties of the mutation API. -/
inductive SetCall where
  | setIntegerCall (device key : String) (value : Int)
  | setFloatCall (device key : String) (value : Rat)
  | setStringCall (device key : String) (value : String)
  | fireOneShotCall (device key : String)
deriving DecidableEq, Repr

/-- The key a call writes to. -/
def SetCall.key : SetCall → SettingKey
  | .setIntegerCall d k _ => ⟨d, k⟩
  | .setFloatCall d k _ => ⟨d, k⟩
  | .setStringCall d k _ => ⟨d, k⟩
  | .fireOneShotCall d k => ⟨d, k⟩

/-- The value a call stores. -/
def SetCall.value : SetCall → SettingValue
  | .setIntegerCall _ _ v => .IntegerSettingValue v
  | .setFloatCall _ _ v => .FloatSettingValue v
  | .setStringCall _ _ v => .StringSettingValue v
  | .fireOneShotCall _ _ => .OneShotSettingValue

/-- Executing one call against the logger (always with `logEvent = true`). -/
def applyCall (lg : SettingLogger) : SetCall → SettingLogger
  | .setIntegerCall d k v => lg.SetInteger d k v true
  | .setFloatCall d k v => lg.SetFloat d k v true
  | .setStringCall d k v => lg.SetString d k v true
  | .fireOneShotCall d k => lg.FireOneShot d k true

/-- Executing a sequence of calls in order. -/
def applyCalls (lg : SettingLogger) (cs : List SetCall) : SettingLogger :=
  cs.foldl applyCall lg

/-- The event a call generates when the counter stands at `c`. -/
def eventOfCall (c : Nat) (call : SetCall) : SettingEvent :=
  ⟨call.key, call.value, c⟩

/-- The events a call sequence generates starting from counter value `c`
(assuming no `uint64_t` wraparound): the i-th call gets order index
`c + i`. -/
def eventsFrom (c : Nat) : List SetCall → List SettingEvent
  | [] => []
  | call :: rest => eventOfCall c call :: eventsFrom (c + 1) rest

/-! Helper lemmas shared by the claim theorems. -/

theorem applyCall_settingEvents (lg : SettingLogger) (c : SetCall) :
    (applyCall lg c).settingEvents_
      = lg.settingEvents_ ++ [eventOfCall lg.counter_ c] := by
  cases c <;>
    simp [applyCall, SettingLogger.SetInteger, SettingLogger.SetFloat,
      SettingLogger.SetString, SettingLogger.FireOneShot,
      SettingLogger.SetValueImpl, eventOfCall, SetCall.key, SetCall.value]

theorem applyCall_counter (lg : SettingLogger) (c : SetCall) :
    (applyCall lg c).counter_ = (lg.counter_ + 1) % UINT64_MOD := by
  cases c <;>
    simp [applyCall, SettingLogger.SetInteger, SettingLogger.SetFloat,
      SettingLogger.SetString, SettingLogger.FireOneShot,
      SettingLogger.SetValueImpl]

theorem applyCalls_settingEvents (cs : List SetCall) (lg : SettingLogger)
    (h : lg.counter_ + cs.length < UINT64_MOD) :
    (applyCalls lg cs).settingEvents_
        = lg.settingEvents_ ++ eventsFrom lg.counter_ cs
      ∧ (applyCalls lg cs).counter_ = lg.counter_ + cs.length := by
  induction cs generalizing lg with
  | nil => simp [applyCalls, eventsFrom]
  | cons c rest ih =>
    have hc : (applyCall lg c).counter_ = lg.counter_ + 1 := by
      rw [applyCall_counter]
      exact Nat.mod_eq_of_lt (by simp at h; omega)
    have h' : (applyCall lg c).counter_ + rest.length < UINT64_MOD := by
      rw [hc]; simp at h; omega
    obtain ⟨e1, e2⟩ := ih (applyCall lg c) h'
    have hstep : applyCalls lg (c :: rest) = applyCalls (applyCall lg c) rest := rfl
    refine ⟨?_, ?_⟩
    · rw [hstep, e1, applyCall_settingEvents, hc, eventsFrom]
      simp
    · rw [hstep, e2, hc]
      simp [Nat.add_assoc, Nat.add_comm 1 rest.length]

theorem eventsFrom_length (c : Nat) (cs : List SetCall) :
    (eventsFrom c cs).length = cs.length := by
  induction cs generalizing c with
  | nil => rfl
  | cons x rest ih => simp [eventsFrom, ih]

theorem eventsFrom_count_ge (c : Nat) (cs : List SetCall) :
    ∀ e ∈ eventsFrom c cs, c ≤ e.count_ := by
  induction cs generalizing c with
  | nil => intro e he; simp [eventsFrom] at he
  | cons x rest ih =>
    intro e he
    simp only [eventsFrom, List.mem_cons] at he
    rcases he with he | he
    · subst he; exact Nat.le_refl _
    · exact Nat.le_of_succ_le (ih (c + 1) e he)

theorem eventsFrom_count_lt (c : Nat) (cs : List SetCall) :
    ∀ e ∈ eventsFrom c cs, e.count_ < c + cs.length := by
  induction cs generalizing c with
  | nil => intro e he; simp [eventsFrom] at he
  | cons x rest ih =>
    intro e he
    simp only [eventsFrom, List.mem_cons] at he
    rcases he with he | he
    · subst he; simp [eventOfCall]
    · have := ih (c + 1) e he
      simp only [List.length_cons]
      omega

theorem eventsFrom_pairwise (c : Nat) (cs : List SetCall) :
    ((eventsFrom c cs).map SettingEvent.count_).Pairwise (· < ·) := by
  induction cs generalizing c with
  | nil => simp [eventsFrom]
  | cons x rest ih =>
    simp only [eventsFrom, List.map_cons, List.pairwise_cons]
    refine ⟨?_, ih (c + 1)⟩
    intro b hb
    simp only [List.mem_map] at hb
    obtain ⟨e, he, hbe⟩ := hb
    have := eventsFrom_count_ge (c + 1) rest e he
    simp only [eventOfCall]
    omega

theorem packAndReset_success (lg : SettingLogger) (d : Nat) (cam : String)
    (sq : Bool) (n m : Nat)
    (h : (lg.PackAndReset d cam sq n m).1 = true) :
    lg.PackAndReset d cam sq n m
      = (true,
         packTokens lg cam sq n m ((lg.globalImageCount_ + 1) % UINT64_MOD),
         { lg.Reset with
            globalImageCount_ := (lg.globalImageCount_ + 1) % UINT64_MOD }) := by
  by_cases hc : sbufSize (packTokens lg cam sq n m
      ((lg.globalImageCount_ + 1) % UINT64_MOD)) ≤ d
  · simp [SettingLogger.PackAndReset, hc]
  · exact absurd h (by simp [SettingLogger.PackAndReset, hc])

theorem bpLookup_bpDecr (bps : BusyMap) (device : String) :
    bpLookup (bpDecr bps device) device = bpLookup bps device - 1 := by
  induction bps with
  | nil => rfl
  | cons p rest ih =>
    obtain ⟨d, n⟩ := p
    by_cases h : device = d <;> simp [bpDecr, bpLookup, h, ih]

theorem bpLookup_bpIncr_of_absent (bps : BusyMap) (device : String)
    (h : bpLookup bps device = 0) :
    bpLookup (bpIncr bps device) device = 1 := by
  induction bps with
  | nil => simp [bpIncr, bpLookup]
  | cons p rest ih =>
    obtain ⟨d, n⟩ := p
    by_cases hd : device = d
    · have hn : n = 0 := by simpa [bpLookup, hd] using h
      simp [bpIncr, hd, bpLookup, hn]
    · have h' : bpLookup rest device = 0 := by simpa [bpLookup, hd] using h
      by_cases hlt : strLt device d = true
      · simp [bpIncr, hd, hlt, bpLookup]
      · simp [bpIncr, hd, hlt, bpLookup, ih h']

theorem markBusy_busyPoints (lg : SettingLogger) (device : String)
    (logEvent : Bool) :
    (lg.MarkBusy device logEvent).busyPoints_ = bpIncr lg.busyPoints_ device := by
  cases logEvent <;> simp [SettingLogger.MarkBusy]

theorem isBusy_fst (lg : SettingLogger) (device : String) (q : Bool) :
    (lg.IsBusy device q).1 = decide (bpLookup lg.busyPoints_ device ≠ 0) := by
  by_cases h0 : bpLookup lg.busyPoints_ device = 0 <;>
    cases q <;> simp [SettingLogger.IsBusy, h0]

theorem isBusy_destructive_snd (lg : SettingLogger) (device : String) :
    (lg.IsBusy device false).2
      = if bpLookup lg.busyPoints_ device = 0 then lg
        else { lg with busyPoints_ := bpDecr lg.busyPoints_ device } := by
  by_cases h0 : bpLookup lg.busyPoints_ device = 0 <;>
    simp [SettingLogger.IsBusy, h0]

/-! Claim theorems. -/

/-- C1: for every logger state and every `PackAndReset` call whose
destination buffer is too small for the serialized output, the call
returns `false` (writing nothing) and leaves every piece of logger state —
`startingValues_`, the live value table `settingValues_`, the event list
`settingEvents_`, `busyPoints_`, `counter_`, `counterAtLastReset_`,
`globalImageCount_` — exactly equal to its value before the call: no reset
and no counter advance occurs on failure. -/
theorem packAndReset_capacity_failure (lg : SettingLogger) (destSize : Nat)
    (camera : String) (isSequenceImage : Bool)
    (cameraSeqNum acquisitionSeqNum : Nat)
    (h : destSize < sbufSize (packTokens lg camera isSequenceImage
      cameraSeqNum acquisitionSeqNum ((lg.globalImageCount_ + 1) % UINT64_MOD))) :
    lg.PackAndReset destSize camera isSequenceImage cameraSeqNum acquisitionSeqNum
        = (false, [], lg)
      ∧ (lg.PackAndReset destSize camera isSequenceImage cameraSeqNum
          acquisitionSeqNum).2.2.startingValues_ = lg.startingValues_
      ∧ (lg.PackAndReset destSize camera isSequenceImage cameraSeqNum
          acquisitionSeqNum).2.2.settingValues_ = lg.settingValues_
      ∧ (lg.PackAndReset destSize camera isSequenceImage cameraSeqNum
          acquisitionSeqNum).2.2.settingEvents_ = lg.settingEvents_
      ∧ (lg.PackAndReset destSize camera isSequenceImage cameraSeqNum
          acquisitionSeqNum).2.2.busyPoints_ = lg.busyPoints_
      ∧ (lg.PackAndReset destSize camera isSequenceImage cameraSeqNum
          acquisitionSeqNum).2.2.counter_ = lg.counter_
      ∧ (lg.PackAndReset destSize camera isSequenceImage cameraSeqNum
          acquisitionSeqNum).2.2.counterAtLastReset_ = lg.counterAtLastReset_
      ∧ (lg.PackAndReset destSize camera isSequenceImage cameraSeqNum
          acquisitionSeqNum).2.2.globalImageCount_ = lg.globalImageCount_ := by
  have hc : ¬ sbufSize (packTokens lg camera isSequenceImage cameraSeqNum
      acquisitionSeqNum ((lg.globalImageCount_ + 1) % UINT64_MOD)) ≤ destSize :=
    Nat.not_le.mpr h
  have heq : lg.PackAndReset destSize camera isSequenceImage cameraSeqNum
      acquisitionSeqNum = (false, [], lg) := by
    simp [SettingLogger.PackAndReset, hc]
  exact ⟨heq, by rw [heq], by rw [heq], by rw [heq], by rw [heq], by rw [heq],
    by rw [heq], by rw [heq]⟩

/-- C1 witness: a logger holding one event, packed into a zero-byte
buffer, fails and is left untouched. -/
theorem packAndReset_capacity_failure_witness :
    0 < sbufSize (packTokens (SettingLogger.init.SetInteger "Cam1" "Gain" 5 true)
        "Cam1" false 0 0
        (((SettingLogger.init.SetInteger "Cam1" "Gain" 5 true).globalImageCount_ + 1)
          % UINT64_MOD))
      ∧ (SettingLogger.init.SetInteger "Cam1" "Gain" 5 true).PackAndReset 0 "Cam1"
          false 0 0
        = (false, [], SettingLogger.init.SetInteger "Cam1" "Gain" 5 true) :=
  ⟨by decide,
    (packAndReset_capacity_failure (SettingLogger.init.SetInteger "Cam1" "Gain" 5 true)
      0 "Cam1" false 0 0 (by decide)).1⟩

/-- C2: starting from any state just after a reset (empty event list) and
assuming the `uint64_t` event counter does not wrap, a sequence of
`SetInteger`/`SetFloat`/`SetString`/`FireOneShot` calls with
`logEvent = true` leaves one event per call; the i-th event is exactly the
i-th call's key and value with order index `counter + i`, so the order
indices are strictly increasing in list order and equal to the call order;
they are pairwise distinct, and every issued index is below the next value
the counter will hand out (so indices remain unique over the logger
lifetime); `WriteHistory` — the event section of `PackAndReset` —
serializes the events in exactly this increasing order-index order. -/
theorem setCalls_event_order (lg : SettingLogger) (cs : List SetCall)
    (hev : lg.settingEvents_ = [])
    (h : lg.counter_ + cs.length < UINT64_MOD) :
    (applyCalls lg cs).settingEvents_.length = cs.length
      ∧ (applyCalls lg cs).settingEvents_ = eventsFrom lg.counter_ cs
      ∧ ((applyCalls lg cs).settingEvents_.map SettingEvent.count_).Pairwise (· < ·)
      ∧ ((applyCalls lg cs).settingEvents_.map SettingEvent.count_).Nodup
      ∧ (∀ e ∈ (applyCalls lg cs).settingEvents_,
          e.count_ < (applyCalls lg cs).counter_)
      ∧ (applyCalls lg cs).WriteHistory
        = MPToken.tArrayHeader cs.length :: writeEvents (eventsFrom lg.counter_ cs) := by
  obtain ⟨he, hcnt⟩ := applyCalls_settingEvents cs lg h
  rw [hev] at he
  simp only [List.nil_append] at he
  refine ⟨?_, he, ?_, ?_, ?_, ?_⟩
  · rw [he, eventsFrom_length]
  · rw [he]; exact eventsFrom_pairwise lg.counter_ cs
  · rw [he]
    exact (eventsFrom_pairwise lg.counter_ cs).imp (fun hlt => Nat.ne_of_lt hlt)
  · intro e hein
    rw [he] at hein
    rw [hcnt]
    exact eventsFrom_count_lt lg.counter_ cs e hein
  · rw [SettingLogger.WriteHistory, he, eventsFrom_length]

/-- C2 witness: two concrete calls from a fresh logger produce events with
order indices 0 and 1, in that order, and a matching serialized history. -/
theorem setCalls_event_order_witness :
    SettingLogger.init.settingEvents_ = []
      ∧ SettingLogger.init.counter_
          + [SetCall.setIntegerCall "Cam1" "Gain" 5,
             SetCall.setFloatCall "Cam1" "Exposure" 10].length < UINT64_MOD
      ∧ (applyCalls SettingLogger.init
          [SetCall.setIntegerCall "Cam1" "Gain" 5,
           SetCall.setFloatCall "Cam1" "Exposure" 10]).settingEvents_
        = eventsFrom 0
            [SetCall.setIntegerCall "Cam1" "Gain" 5,
             SetCall.setFloatCall "Cam1" "Exposure" 10] :=
  ⟨rfl, by decide,
    (setCalls_event_order SettingLogger.init
      [SetCall.setIntegerCall "Cam1" "Gain" 5,
       SetCall.setFloatCall "Cam1" "Exposure" 10] rfl (by decide)).2.1⟩


/-- The C3 scenario state: a fresh logger after
`SetInteger("Cam1","Gain",5)` then `SetFloat("Cam1","Exposure",10.0)`. -/
def cam1Scenario : SettingLogger :=
  (SettingLogger.init.SetInteger "Cam1" "Gain" 5 true).SetFloat
    "Cam1" "Exposure" 10 true

/-- C3: from a freshly constructed logger, after `SetInteger` of
`Cam1/Gain = 5` then `SetFloat` of `Cam1/Exposure = 10.0`, a successful
`PackAndReset` for camera `Cam1` with `isSequenceImage = false`,
`cameraSeqNum = 0`, `acquisitionSeqNum = 0` writes exactly: a frame
descriptor carrying `globalImageCount = 1`, an empty busy set, the
starting values of the pre-call state (the empty map), and the two events
`(Cam1/Gain, 5, order index 0)` and `(Cam1/Exposure, 10.0, order index 1)`
in that order; the success leaves `globalImageCount_ = 1`, while a failed
pack (zero-capacity buffer) returns the state untouched with
`globalImageCount_ = 0`, so the counter advances exactly once per
successful pack and never on a failed one. -/
theorem pack_scenario_cam1 :
    cam1Scenario.PackAndReset 1000 "Cam1" false 0 0
      = (true,
         writeFrameDescriptor ⟨"Cam1", false, 0, 0⟩ 1
           ++ [MPToken.tArrayHeader 0]
           ++ [MPToken.tMapHeader 0]
           ++ ([MPToken.tArrayHeader 2]
             ++ SettingEvent.Write ⟨⟨"Cam1", "Gain"⟩, .IntegerSettingValue 5, 0⟩
             ++ SettingEvent.Write ⟨⟨"Cam1", "Exposure"⟩, .FloatSettingValue 10, 1⟩),
         { cam1Scenario.Reset with globalImageCount_ := 1 })
      ∧ (cam1Scenario.PackAndReset 1000 "Cam1" false 0 0).2.2.globalImageCount_ = 1
      ∧ cam1Scenario.PackAndReset 0 "Cam1" false 0 0 = (false, [], cam1Scenario)
      ∧ (cam1Scenario.PackAndReset 0 "Cam1" false 0 0).2.2.globalImageCount_ = 0 := by
  refine ⟨?_, ?_, ?_, ?_⟩ <;> decide

/-- C4: immediately after a successful `PackAndReset`, `startingValues_`
equals the live value table as it stood at the moment of that pack,
`counterAtLastReset_` equals `counter_`, and the event list is empty;
consequently a second successful pack with no intervening mutations
serializes an empty event list (`tArrayHeader 0`) and the same starting
values (`WriteSettingMap` of the live table at the first pack). -/
theorem pack_reset_postcondition (lg : SettingLogger) (d : Nat) (cam : String)
    (sq : Bool) (n m : Nat) (d2 : Nat) (cam2 : String) (sq2 : Bool) (n2 m2 : Nat)
    (h : (lg.PackAndReset d cam sq n m).1 = true)
    (h2 : ((lg.PackAndReset d cam sq n m).2.2.PackAndReset d2 cam2 sq2 n2 m2).1
      = true) :
    (lg.PackAndReset d cam sq n m).2.2.startingValues_ = lg.settingValues_
      ∧ (lg.PackAndReset d cam sq n m).2.2.counterAtLastReset_ = lg.counter_
      ∧ (lg.PackAndReset d cam sq n m).2.2.settingEvents_ = []
      ∧ ((lg.PackAndReset d cam sq n m).2.2.PackAndReset d2 cam2 sq2 n2 m2).2.1
        = writeFrameDescriptor ⟨cam2, sq2, n2, m2⟩
            (((lg.PackAndReset d cam sq n m).2.2.globalImageCount_ + 1) % UINT64_MOD)
          ++ (lg.PackAndReset d cam sq n m).2.2.WriteBusyDevices
          ++ WriteSettingMap lg.settingValues_
          ++ [MPToken.tArrayHeader 0] := by
  rw [packAndReset_success lg d cam sq n m h] at h2 ⊢
  rw [packAndReset_success _ d2 cam2 sq2 n2 m2 h2]
  refine ⟨rfl, rfl, rfl, ?_⟩
  simp [packTokens, SettingLogger.WriteHistory, SettingLogger.Reset, writeEvents]

/-- C4 witness: two successive generously-sized packs from a logger
holding one setting. -/
theorem pack_reset_postcondition_witness :
    ((SettingLogger.init.SetInteger "Cam1" "Gain" 5 true).PackAndReset 1000
        "Cam1" false 0 0).1 = true
      ∧ (((SettingLogger.init.SetInteger "Cam1" "Gain" 5 true).PackAndReset 1000
          "Cam1" false 0 0).2.2.PackAndReset 1000 "Cam1" false 1 1).1 = true
      ∧ ((SettingLogger.init.SetInteger "Cam1" "Gain" 5 true).PackAndReset 1000
          "Cam1" false 0 0).2.2.startingValues_
        = (SettingLogger.init.SetInteger "Cam1" "Gain" 5 true).settingValues_ :=
  ⟨by decide, by decide,
    (pack_reset_postcondition (SettingLogger.init.SetInteger "Cam1" "Gain" 5 true)
      1000 "Cam1" false 0 0 1000 "Cam1" false 1 1 (by decide) (by decide)).1⟩

/-- C5: querying a (device, key) pair absent from the live value table is
not an error: `GetInteger` returns `0`, `GetFloat` returns `0.0` and
`GetString` returns the empty string.  The C++ accessors are `const`
methods, embedded as pure functions of the state, so the query modifies no
logger state. -/
theorem get_absent_key_defaults (lg : SettingLogger) (device key : String)
    (h : mapFind lg.settingValues_ ⟨device, key⟩ = none) :
    lg.GetInteger device key = 0
      ∧ lg.GetFloat device key = 0
      ∧ lg.GetString device key = "" := by
  refine ⟨?_, ?_, ?_⟩ <;>
    simp [SettingLogger.GetInteger, SettingLogger.GetFloat,
      SettingLogger.GetString, h]

/-- C5 witness: an unset key on a logger that holds a different key. -/
theorem get_absent_key_defaults_witness :
    mapFind (SettingLogger.init.SetInteger "Cam1" "Gain" 5 true).settingValues_
        ⟨"Cam1", "Offset"⟩ = none
      ∧ (SettingLogger.init.SetInteger "Cam1" "Gain" 5 true).GetInteger "Cam1"
          "Offset" = 0 :=
  ⟨by decide,
    (get_absent_key_defaults (SettingLogger.init.SetInteger "Cam1" "Gain" 5 true)
      "Cam1" "Offset" (by decide)).1⟩

/-- C6: a typed accessor called on a `SettingValue` of a different variant
returns that accessor's default — `GetInteger` gives `0`, `GetFloat` gives
`0.0`, `GetString` gives the empty string — with no error signal; in
particular all three accessors on a `OneShotSettingValue` return these
defaults.  The accessors are `const` on immutable (`const` field) objects,
embedded as pure functions, so they never mutate the value. -/
theorem settingValue_mismatched_accessor_defaults (v : SettingValue) :
    ((∀ i : Int, v ≠ SettingValue.IntegerSettingValue i) → v.GetInteger = 0)
      ∧ ((∀ q : Rat, v ≠ SettingValue.FloatSettingValue q) → v.GetFloat = 0)
      ∧ ((∀ s : String, v ≠ SettingValue.StringSettingValue s) → v.GetString = "")
      ∧ SettingValue.OneShotSettingValue.GetInteger = 0
      ∧ SettingValue.OneShotSettingValue.GetFloat = 0
      ∧ SettingValue.OneShotSettingValue.GetString = "" := by
  refine ⟨fun hne => ?_, fun hne => ?_, fun hne => ?_, rfl, rfl, rfl⟩
  · cases v with
    | IntegerSettingValue i => exact absurd rfl (hne i)
    | FloatSettingValue q => rfl
    | StringSettingValue s => rfl
    | OneShotSettingValue => rfl
  · cases v with
    | IntegerSettingValue i => rfl
    | FloatSettingValue q => exact absurd rfl (hne q)
    | StringSettingValue s => rfl
    | OneShotSettingValue => rfl
  · cases v with
    | IntegerSettingValue i => rfl
    | FloatSettingValue q => rfl
    | StringSettingValue s => exact absurd rfl (hne s)
    | OneShotSettingValue => rfl

/-- C6 witness: the one-shot marker matches none of the three accessors,
and all three return their defaults on it. -/
theorem settingValue_mismatched_accessor_defaults_witness :
    SettingValue.OneShotSettingValue.GetInteger = 0
      ∧ SettingValue.OneShotSettingValue.GetFloat = 0
      ∧ SettingValue.OneShotSettingValue.GetString = "" :=
  ⟨(settingValue_mismatched_accessor_defaults SettingValue.OneShotSettingValue).1
      (fun _i h => SettingValue.noConfusion h),
    (settingValue_mismatched_accessor_defaults SettingValue.OneShotSettingValue).2.1
      (fun _q h => SettingValue.noConfusion h),
    (settingValue_mismatched_accessor_defaults SettingValue.OneShotSettingValue).2.2.1
      (fun _s h => SettingValue.noConfusion h)⟩

/-- C7: per-device busy semantics.  Counts live in `Nat`, so they are
non-negative by construction; `IsBusy` reports busy exactly when the count
is nonzero (both destructively and non-destructively); a non-destructive
query never changes state; a destructive query takes the count to
`count - 1` (truncated subtraction: a nonzero count drops by one, a zero
count stays at zero while the query returns `false` and changes nothing);
and after a single `MarkBusy` on an idle device the first destructive
`IsBusy` returns `true`, a second one returns `false`, while
non-destructive queries return `true` and leave the state unchanged, so
arbitrarily many repeats all return `true`. -/
theorem busy_point_semantics (lg : SettingLogger) (device : String) :
    ((lg.IsBusy device false).1 = true ↔ bpLookup lg.busyPoints_ device ≠ 0)
      ∧ ((lg.IsBusy device true).1 = true ↔ bpLookup lg.busyPoints_ device ≠ 0)
      ∧ (lg.IsBusy device true).2 = lg
      ∧ bpLookup (lg.IsBusy device false).2.busyPoints_ device
        = bpLookup lg.busyPoints_ device - 1
      ∧ (bpLookup lg.busyPoints_ device = 0 → lg.IsBusy device false = (false, lg))
      ∧ (∀ logEvent : Bool, bpLookup lg.busyPoints_ device = 0 →
          ((lg.MarkBusy device logEvent).IsBusy device false).1 = true
            ∧ (((lg.MarkBusy device logEvent).IsBusy device false).2.IsBusy
                device false).1 = false
            ∧ ((lg.MarkBusy device logEvent).IsBusy device true).1 = true
            ∧ ((lg.MarkBusy device logEvent).IsBusy device true).2
              = lg.MarkBusy device logEvent) := by
  have hfst := isBusy_fst lg device
  refine ⟨?_, ?_, ?_, ?_, ?_, ?_⟩
  · rw [isBusy_fst]; simp
  · rw [isBusy_fst]; simp
  · simp [SettingLogger.IsBusy]
  · rw [isBusy_destructive_snd]
    by_cases h0 : bpLookup lg.busyPoints_ device = 0
    · simp [h0]
    · simp [h0, bpLookup_bpDecr]
  · intro h0; simp [SettingLogger.IsBusy, h0]
  · intro logEvent h0
    have h1 : bpLookup (lg.MarkBusy device logEvent).busyPoints_ device = 1 := by
      rw [markBusy_busyPoints]
      exact bpLookup_bpIncr_of_absent lg.busyPoints_ device h0
    have h2 : bpLookup ((lg.MarkBusy device logEvent).IsBusy device
        false).2.busyPoints_ device = 0 := by
      rw [isBusy_destructive_snd, if_neg (by rw [h1]; omega)]
      simp [bpLookup_bpDecr, h1]
    refine ⟨?_, ?_, ?_, ?_⟩
    · rw [isBusy_fst, h1]; simp
    · rw [isBusy_fst, h2]; simp
    · rw [isBusy_fst, h1]; simp
    · simp [SettingLogger.IsBusy]

/-- C7 witness: one `MarkBusy` on a fresh logger; the first destructive
poll consumes it, the second reports idle, non-destructive polls keep
reporting busy. -/
theorem busy_point_semantics_witness :
    ((SettingLogger.init.MarkBusy "Dev" true).IsBusy "Dev" false).1 = true
      ∧ (((SettingLogger.init.MarkBusy "Dev" true).IsBusy "Dev" false).2.IsBusy
          "Dev" false).1 = false
      ∧ ((SettingLogger.init.MarkBusy "Dev" true).IsBusy "Dev" true).1 = true
      ∧ ((SettingLogger.init.MarkBusy "Dev" true).IsBusy "Dev" true).2
        = SettingLogger.init.MarkBusy "Dev" true :=
  (busy_point_semantics SettingLogger.init "Dev").2.2.2.2.2 true rfl

/-- C8: each of the four mutation operations called with
`logEvent = false` updates the live value table exactly as the
`logEvent = true` version does while leaving every other piece of state —
in particular the event list, hence `WriteHistory`, the events section of
any subsequent pack — identical to what it was before the call, as if the
call had not occurred. -/
theorem silent_mutation_no_event (lg : SettingLogger) (device key : String)
    (i : Int) (q : Rat) (s : String) :
    lg.SetInteger device key i false
        = { lg with settingValues_ := (lg.SetInteger device key i true).settingValues_ }
      ∧ (lg.SetInteger device key i false).WriteHistory = lg.WriteHistory
      ∧ lg.SetFloat device key q false
        = { lg with settingValues_ := (lg.SetFloat device key q true).settingValues_ }
      ∧ (lg.SetFloat device key q false).WriteHistory = lg.WriteHistory
      ∧ lg.SetString device key s false
        = { lg with settingValues_ := (lg.SetString device key s true).settingValues_ }
      ∧ (lg.SetString device key s false).WriteHistory = lg.WriteHistory
      ∧ lg.FireOneShot device key false
        = { lg with settingValues_ := (lg.FireOneShot device key true).settingValues_ }
      ∧ (lg.FireOneShot device key false).WriteHistory = lg.WriteHistory :=
  ⟨rfl, rfl, rfl, rfl, rfl, rfl, rfl, rfl⟩

/-- C10: a successful `PackAndReset` leaves the live value table
`settingValues_`, the event counter `counter_`, and the busy-point table
`busyPoints_` unchanged; the `Reset` helper itself assigns only
`counterAtLastReset_`, `startingValues_` and `settingEvents_`, leaving
the live table, both counters, and the busy points alone. -/
theorem pack_success_preserves_live_state (lg : SettingLogger) (d : Nat)
    (cam : String) (sq : Bool) (n m : Nat)
    (h : (lg.PackAndReset d cam sq n m).1 = true) :
    (lg.PackAndReset d cam sq n m).2.2.settingValues_ = lg.settingValues_
      ∧ (lg.PackAndReset d cam sq n m).2.2.counter_ = lg.counter_
      ∧ (lg.PackAndReset d cam sq n m).2.2.busyPoints_ = lg.busyPoints_
      ∧ lg.Reset.settingValues_ = lg.settingValues_
      ∧ lg.Reset.counter_ = lg.counter_
      ∧ lg.Reset.busyPoints_ = lg.busyPoints_
      ∧ lg.Reset.globalImageCount_ = lg.globalImageCount_ := by
  rw [packAndReset_success lg d cam sq n m h]
  exact ⟨rfl, rfl, rfl, rfl, rfl, rfl, rfl⟩

/-- C10 witness: a successful pack from a logger holding one setting and
one busy point leaves the live table, the counter and the busy points as
they were. -/
theorem pack_success_preserves_live_state_witness :
    (((SettingLogger.init.SetInteger "Cam1" "Gain" 5 true).MarkBusy "Dev"
        false).PackAndReset 1000 "Cam1" false 0 0).1 = true
      ∧ (((SettingLogger.init.SetInteger "Cam1" "Gain" 5 true).MarkBusy "Dev"
          false).PackAndReset 1000 "Cam1" false 0 0).2.2.busyPoints_
        = ((SettingLogger.init.SetInteger "Cam1" "Gain" 5 true).MarkBusy "Dev"
          false).busyPoints_ :=
  ⟨by decide,
    (pack_success_preserves_live_state
      ((SettingLogger.init.SetInteger "Cam1" "Gain" 5 true).MarkBusy "Dev" false)
      1000 "Cam1" false 0 0 (by decide)).2.2.1⟩
